import Mathlib

/-!
Verification of the Katy Trail gateway scanner engine (src/gateway/scanner.py).

The stateful Python class `TrailScanner` is embedded shallowly:
* timestamps, GPS coordinates and RSSI values are rationals (`ℚ`);
  floating point trigonometry for the haversine distance is modelled over `ℝ`;
* the `tag_rssi_windows` defaultdict of deques is an association list
  `Store = List (String × Window)` with explicit lazy-creation semantics
  (a `__getitem__` on a missing key inserts an empty window, as Python's
  `defaultdict` does);
* `batch_send`'s in-place mutations become explicit state passing; the
  outbound HTTP call is a collaborator, modelled by a boolean outcome
  parameter `sendOk` that the function's state transition may not consult
  (the Python code performs all mutations before `requests.post` and never
  branches on the response);
* the haversine distance used by the movement gate is a function parameter
  `dist` in the computable `ℚ` development, and is instantiated with the
  real-valued `haversine_distance` for the movement-gate claim.
-/

/-! ## Configuration constants (module level in scanner.py) -/

def SCAN_INTERVAL : ℕ := 5

def BATCH_SEND_INTERVAL : ℕ := 180

def MOVEMENT_DISTANCE_THRESHOLD : ℕ := 10

def MOVEMENT_TIME_THRESHOLD : ℕ := 120

def RSSI_WINDOW_SIZE : ℕ := 30

/-! ## Data model -/

/-- A GPS coordinate pair, as `self.config["gps"]` / `self.gps_coords`. -/
structure Gps (α : Type) where
  lat : α
  lng : α
deriving DecidableEq

/-- The `self.last_sent_gps` record `{lat, lng, ts}`. -/
structure LastSentGps (α : Type) where
  lat : α
  lng : α
  ts : α
deriving DecidableEq

/-- One rolling-window entry `(timestamp, rssi)` as stored in a tag's deque. -/
abbrev WindowEntry : Type := ℚ × ℚ

/-- A tag's rolling window: the deque of `(timestamp, rssi)` pairs. -/
abbrev Window : Type := List WindowEntry

/-- The `tag_rssi_windows` defaultdict: an insertion-ordered map
from tag id to its window. -/
abbrev Store : Type := List (String × Window)

/-- The gateway configuration relevant to the engine (`config.json`). -/
structure Config where
  gateway_id : String
  gps : Gps ℚ
  allowed_tag_uuids : List String
deriving DecidableEq

/-- The mutable state of a `TrailScanner` instance (the fields used by the
aggregation engine). -/
structure ScannerState where
  gateway_id : String
  scan_count : ℕ
  total_detections : ℕ
  last_batch_time : ℚ
  buffer : Finset String
  allowed_tag_uuids : List String
  tag_rssi_windows : Store
  last_sent_gps : Option (LastSentGps ℚ)
  gps_coords : Gps ℚ
deriving DecidableEq

/-- `TrailScanner.__init__`: fresh state from the configuration, at start
time `t0` (`datetime.now()`). -/
def initState (config : Config) (t0 : ℚ) : ScannerState where
  gateway_id := config.gateway_id
  scan_count := 0
  total_detections := 0
  last_batch_time := t0
  buffer := ∅
  allowed_tag_uuids := config.allowed_tag_uuids
  tag_rssi_windows := []
  last_sent_gps := none
  gps_coords := config.gps

/-! ## Store primitives (Python dict/defaultdict behaviour) -/

/-- Plain dict lookup: the window bound to `tag`, if the key is present. -/
def lookupWindow : Store → String → Option Window
  | [], _ => none
  | (k, w) :: rest, tag => if k = tag then some w else lookupWindow rest tag

/-- `defaultdict.__getitem__`: return the bound window, or bind (and return)
an empty one, appended in insertion order, when the key is missing. -/
def getWindowDefault (store : Store) (tag : String) : Window × Store :=
  match lookupWindow store tag with
  | some w => (w, store)
  | none => ([], store ++ [(tag, [])])

/-- Replace the window bound to an existing key (in-place mutation of the
stored deque); appends the binding when the key is absent. -/
def setWindow : Store → String → Window → Store
  | [], tag, w => [(tag, w)]
  | (k, w0) :: rest, tag, w =>
      if k = tag then (tag, w) :: rest else (k, w0) :: setWindow rest tag w

/-! ## RSSI window operations -/

/-- The `while window and window[0][0] < cutoff_time: window.popleft()` loop:
drop the maximal prefix of entries with timestamp before the cutoff. -/
def pruneWindow (window : Window) (cutoff_time : ℚ) : Window :=
  window.dropWhile (fun e => decide (e.1 < cutoff_time))

/-- The median computation at the end of `get_median_rssi`: sort a copy of
the values; an even count averages the two central values, an odd count
takes the central value. -/
def statMedian (rssi_values : List ℚ) : ℚ :=
  let sorted := rssi_values.insertionSort (· ≤ ·)
  let n := sorted.length
  if n % 2 = 0 then ((sorted.getD (n / 2 - 1) 0) + sorted.getD (n / 2) 0) / 2
  else sorted.getD (n / 2) 0

/-- `TrailScanner.get_median_rssi`, with the store threading made explicit:
the `defaultdict` access may create an empty entry, and the in-place
`popleft` pruning updates the stored deque. -/
def get_median_rssi (store : Store) (tag_id : String) (current_time : ℚ) :
    Option ℚ × Store :=
  let (window, store1) := getWindowDefault store tag_id
  if window.isEmpty then (none, store1)
  else
    let cutoff_time := current_time - (RSSI_WINDOW_SIZE : ℚ)
    let pruned := pruneWindow window cutoff_time
    let store2 := setWindow store1 tag_id pruned
    if pruned.isEmpty then (none, store2)
    else (some (statMedian (pruned.map Prod.snd)), store2)

/-- `TrailScanner.update_tag_rssi_window`: append `(now, rssi)` to the tag's
window (creating it if needed), then prune entries older than the span. -/
def update_tag_rssi_window (store : Store) (tag_id : String) (rssi : ℚ)
    (current_time : ℚ) : Store :=
  let (window, store1) := getWindowDefault store tag_id
  let appended := window ++ [(current_time, rssi)]
  let cutoff_time := current_time - (RSSI_WINDOW_SIZE : ℚ)
  setWindow store1 tag_id (pruneWindow appended cutoff_time)

/-! ## Pseudonymizer -/

/-- Modelled from the spec: the external hash library (`hashlib.sha256(...)
.hexdigest()`) is a fixed deterministic function from the input string to a
64-character hexadecimal digest; it is passed as the parameter
`sha256_hexdigest`. `TrailScanner.hash_mac` truncates the digest to its
first 16 characters (`[:16]`). -/
def hash_mac (sha256_hexdigest : String → String) (mac_address : String) :
    String :=
  String.mk ((sha256_hexdigest mac_address).data.take 16)

/-! ## Movement gate -/

/-- `TrailScanner.should_send_asset_tracking`, generic in the numeric type
and in the distance function `dist` (the Python method calls
`self.haversine_distance`). -/
def should_send_asset_tracking {α : Type} [LinearOrderedField α]
    (dist : α → α → α → α → α) (last_sent_gps : Option (LastSentGps α))
    (gps_coords : Gps α) (current_time : α) : Bool :=
  match last_sent_gps with
  | none => true
  | some ls =>
    if current_time - ls.ts > (MOVEMENT_TIME_THRESHOLD : α) then true
    else if dist ls.lat ls.lng gps_coords.lat gps_coords.lng >
        (MOVEMENT_DISTANCE_THRESHOLD : α) then true
    else false

/-- `math.radians`: degrees to radians. -/
noncomputable def radians (x : ℝ) : ℝ := x * Real.pi / 180

open Classical in
/-- `math.atan2 y x`: the two-argument arctangent. -/
noncomputable def atan2 (y x : ℝ) : ℝ :=
  if 0 < x then Real.arctan (y / x)
  else if x < 0 ∧ 0 ≤ y then Real.arctan (y / x) + Real.pi
  else if x < 0 ∧ y < 0 then Real.arctan (y / x) - Real.pi
  else if x = 0 ∧ 0 < y then Real.pi / 2
  else if x = 0 ∧ y < 0 then -(Real.pi / 2)
  else 0

/-- `TrailScanner.haversine_distance`: great-circle distance in meters
between two GPS coordinates on a spherical Earth of radius 6,371,000 m. -/
noncomputable def haversine_distance (lat1 lng1 lat2 lng2 : ℝ) : ℝ :=
  let R : ℝ := 6371000
  let phi1 := radians lat1
  let phi2 := radians lat2
  let delta_phi := radians (lat2 - lat1)
  let delta_lambda := radians (lng2 - lng1)
  let a := Real.sin (delta_phi / 2) ^ 2 +
    Real.cos phi1 * Real.cos phi2 * Real.sin (delta_lambda / 2) ^ 2
  let c := 2 * atan2 (Real.sqrt a) (Real.sqrt (1 - a))
  R * c

/-! ## Identity resolver (the matching chain inside `scan_once`) -/

/-- Python `str.upper()`: uppercase every character. -/
def pyUpper (s : String) : String := String.mk (s.data.map Char.toUpper)

/-- The per-device matching chain of `TrailScanner.scan_once` (lines
236-280): advertised name case-sensitively, then case-insensitively; then
advertised service identifiers uppercased against the uppercased allow-list;
then the hardware address uppercased against the uppercased allow-list.
`allowed` is `self.allowed_tag_uuids` and `allowed.map pyUpper`
plays `self.allowed_tag_uuids_upper`. -/
def resolve_tag_id (allowed : List String) (name : Option String)
    (service_uuids : List String) (address : String) : Option String :=
  let byName : Option String :=
    match name with
    | some n =>
      if n ≠ "" then
        if n ∈ allowed then some n
        else allowed.find? (fun a => pyUpper a = pyUpper n)
      else none
    | none => none
  match byName with
  | some t => some t
  | none =>
    let byService : Option String :=
      service_uuids.findSome? (fun u =>
        if pyUpper u ∈ allowed.map pyUpper then
          allowed.find? (fun a => pyUpper a = pyUpper u)
        else none)
    match byService with
    | some t => some t
    | none =>
      if pyUpper address ∈ allowed.map pyUpper then
        allowed.find? (fun a => pyUpper a = pyUpper address)
      else none

/-! ## Payloads and the batch dispatcher -/

/-- The `telemetry` section of the outbound payload. -/
structure TelemetryPayload where
  gateway_id : String
  timestamp : ℚ
  unique_devices : ℕ
deriving DecidableEq

/-- One `{"id": ..., "rssi": ...}` element of the asset payload's tag list. -/
structure TagReport where
  id : String
  rssi : ℤ
deriving DecidableEq

/-- The `asset_tracking` section of the outbound payload. -/
structure AssetPayload where
  gateway_id : String
  ts : ℚ
  lat : ℚ
  lng : ℚ
  tags : List TagReport
deriving DecidableEq

/-- The merged outbound payload: both sections optional, a section is absent
exactly when its dict key was never set. -/
structure CombinedPayload where
  telemetry : Option TelemetryPayload
  asset_tracking : Option AssetPayload
deriving DecidableEq

/-- Python `int()` applied to the median: truncation toward zero. -/
def pyInt (q : ℚ) : ℤ := if 0 ≤ q then ⌊q⌋ else ⌈q⌉

/-- The `for tag_id in self.allowed_tag_uuids` loop of `batch_send`:
collect `{"id", "rssi"}` records for tags with a non-`None` median,
threading the store through the `get_median_rssi` side effects. -/
def collect_tracked_tags (store : Store) (allowed : List String)
    (current_time : ℚ) : List TagReport × Store :=
  match allowed with
  | [] => ([], store)
  | tag_id :: rest =>
    let (median_rssi, store1) := get_median_rssi store tag_id current_time
    let (tags, store2) := collect_tracked_tags store1 rest current_time
    match median_rssi with
    | some m => (⟨tag_id, pyInt m⟩ :: tags, store2)
    | none => (tags, store2)

/-- `TrailScanner.batch_send` at cycle start time `start_time`
(`datetime.now()`). The transport collaborator's outcome is `sendOk`; the
Python code performs every state mutation (buffer drain, window pruning,
`last_sent_gps`, `last_batch_time`) before calling `requests.post` and
never branches on the response, so the resulting state may not depend on
`sendOk`. Returns the payload handed to the transport (`none` when the
early `return` skips the network call) and the state after the cycle. -/
def batch_send (dist : ℚ → ℚ → ℚ → ℚ → ℚ) (s : ScannerState)
    (start_time : ℚ) (sendOk : Bool) : Option CombinedPayload × ScannerState :=
  let _ := sendOk
  let (telemetry_payload, buffer1) :=
    if s.buffer.Nonempty then
      (some (TelemetryPayload.mk s.gateway_id start_time s.buffer.card),
        (∅ : Finset String))
    else ((none : Option TelemetryPayload), s.buffer)
  let should_send_assets :=
    should_send_asset_tracking dist s.last_sent_gps s.gps_coords start_time
  let (asset_payload, store1, last_sent1) :=
    if should_send_assets then
      let (tracked_tags, store1) :=
        collect_tracked_tags s.tag_rssi_windows s.allowed_tag_uuids start_time
      (some (AssetPayload.mk s.gateway_id start_time s.gps_coords.lat
          s.gps_coords.lng tracked_tags),
        store1,
        some (LastSentGps.mk s.gps_coords.lat s.gps_coords.lng start_time))
    else ((none : Option AssetPayload), s.tag_rssi_windows, s.last_sent_gps)
  if telemetry_payload = none ∧ asset_payload = none then
    (none, { s with buffer := buffer1, tag_rssi_windows := store1,
                    last_sent_gps := last_sent1 })
  else
    (some (CombinedPayload.mk telemetry_payload asset_payload),
      { s with buffer := buffer1, tag_rssi_windows := store1,
               last_sent_gps := last_sent1, last_batch_time := start_time })

/-! ## Derived pure views and spec-side definitions -/

/-- The value computed by `get_median_rssi`, as a pure function of the
tag's window (read off the stateful definition; see `fst_get_median`). -/
def window_median (window : Window) (current_time : ℚ) : Option ℚ :=
  if window.isEmpty then none
  else
    let pruned := pruneWindow window (current_time - (RSSI_WINDOW_SIZE : ℚ))
    if pruned.isEmpty then none
    else some (statMedian (pruned.map Prod.snd))

/-- Written from the spec's words for `medianEstimate`: prune the entries
older than the window span, return no estimate on an empty remainder,
otherwise the statistical median of the remaining signal strengths. -/
def medianEstimate_spec (window : Window) (current_time : ℚ) : Option ℚ :=
  let remaining :=
    window.filter (fun e => decide (current_time - (RSSI_WINDOW_SIZE : ℚ) ≤ e.1))
  if remaining.isEmpty then none
  else some (statMedian (remaining.map Prod.snd))

/-- A window's entries are in nondecreasing timestamp order, as produced by
appending at the wall-clock times of successive scans. -/
def SortedTs (window : Window) : Prop :=
  window.Pairwise (fun a b => a.1 ≤ b.1)

/-- Written from the spec's words for the Identity Resolver matching order:
name case-sensitively then case-insensitively, then service identifiers
uppercased against the uppercased allow-list, then the hardware address
uppercased; the first match wins and the allow-list casing is returned. -/
def resolve_tag_id_spec (allowed : List String) (name : Option String)
    (service_uuids : List String) (address : String) : Option String :=
  let nameMatch : Option String :=
    match name with
    | some n =>
      if n ≠ "" then
        if n ∈ allowed then some n
        else allowed.find? (fun a => pyUpper a = pyUpper n)
      else none
    | none => none
  (nameMatch.orElse (fun _ =>
    service_uuids.findSome? (fun u =>
      allowed.find? (fun a => pyUpper a = pyUpper u)))).orElse
    (fun _ => allowed.find? (fun a => pyUpper a = pyUpper address))

/-! ## Concrete instances used by witnesses and counterexamples -/

/-- A trivial distance collaborator for concrete evaluations. -/
def dist0 : ℚ → ℚ → ℚ → ℚ → ℚ := fun _ _ _ _ => 0

/-- A small concrete configuration with one allow-listed tag. -/
def cfg0 : Config := ⟨"gw-01", ⟨39, -94⟩, ["TAG-A"]⟩

/-- A concrete stand-in for the digest collaborator: a constant
64-character string. -/
def sha0 : String → String := fun _ => String.mk (List.replicate 64 'e')

/-! ## Store lemmas -/

theorem lookupWindow_append_ne (store : Store) (tag t : String) (w : Window)
    (h : t ≠ tag) : lookupWindow (store ++ [(tag, w)]) t = lookupWindow store t := by
  induction store with
  | nil => simp [lookupWindow, Ne.symm h]
  | cons kv rest ih =>
    obtain ⟨k, w0⟩ := kv
    by_cases hk : k = t <;> simp [lookupWindow, hk, ih]

theorem lookupWindow_setWindow_ne (store : Store) (tag t : String) (w : Window)
    (h : t ≠ tag) : lookupWindow (setWindow store tag w) t = lookupWindow store t := by
  induction store with
  | nil => simp [setWindow, lookupWindow, Ne.symm h]
  | cons kv rest ih =>
    obtain ⟨k, w0⟩ := kv
    by_cases hk : k = tag
    · subst hk
      simp [setWindow, lookupWindow, Ne.symm h]
    · by_cases hkt : k = t <;> simp [setWindow, lookupWindow, h, hk, hkt, ih]

theorem lookupWindow_setWindow_self (store : Store) (tag : String) (w : Window) :
    lookupWindow (setWindow store tag w) tag = some w := by
  induction store with
  | nil => simp [setWindow, lookupWindow]
  | cons kv rest ih =>
    obtain ⟨k, w0⟩ := kv
    by_cases hk : k = tag <;> simp [setWindow, lookupWindow, hk, ih]

theorem fst_get_median (store : Store) (tag : String) (now : ℚ) :
    (get_median_rssi store tag now).1 =
      window_median ((lookupWindow store tag).getD []) now := by
  unfold get_median_rssi getWindowDefault window_median
  cases h : lookupWindow store tag with
  | none => simp
  | some w =>
    cases w with
    | nil => simp
    | cons a t =>
      simp only [Option.getD_some, List.isEmpty_cons, Bool.false_eq_true,
        if_false]
      split <;> simp

theorem lookupWindow_get_median_ne (store : Store) (tag t : String) (now : ℚ)
    (h : t ≠ tag) :
    lookupWindow (get_median_rssi store tag now).2 t = lookupWindow store t := by
  unfold get_median_rssi getWindowDefault
  cases hl : lookupWindow store tag with
  | none => simp [lookupWindow_append_ne store tag t [] h]
  | some w =>
    cases w with
    | nil => simp
    | cons a tl =>
      simp only [List.isEmpty_cons, Bool.false_eq_true, if_false]
      split <;> simp [lookupWindow_setWindow_ne store tag t _ h]

theorem lookupWindow_update_self (store : Store) (tag : String) (rssi now : ℚ) :
    lookupWindow (update_tag_rssi_window store tag rssi now) tag =
      some (pruneWindow ((lookupWindow store tag).getD [] ++ [(now, rssi)])
        (now - (RSSI_WINDOW_SIZE : ℚ))) := by
  unfold update_tag_rssi_window getWindowDefault
  cases hl : lookupWindow store tag with
  | none => simp [lookupWindow_setWindow_self]
  | some w => simp [lookupWindow_setWindow_self]

theorem pruneWindow_mem_ge (window : Window) (c : ℚ) (hs : SortedTs window) :
    ∀ e ∈ pruneWindow window c, c ≤ e.1 := by
  induction window with
  | nil => simp [pruneWindow]
  | cons a t ih =>
    obtain ⟨ha, ht⟩ := List.pairwise_cons.mp hs
    by_cases h : a.1 < c
    · intro e he
      refine ih ht e ?_
      simpa [pruneWindow, List.dropWhile_cons, h] using he
    · intro e he
      have he2 : e = a ∨ e ∈ t := by
        simpa [pruneWindow, List.dropWhile_cons, h] using he
      rcases he2 with rfl | he2
      · exact le_of_not_lt h
      · exact le_trans (le_of_not_lt h) (ha e he2)

theorem pruneWindow_eq_filter (window : Window) (c : ℚ) (hs : SortedTs window) :
    pruneWindow window c = window.filter (fun e => decide (c ≤ e.1)) := by
  induction window with
  | nil => simp [pruneWindow]
  | cons a t ih =>
    obtain ⟨ha, ht⟩ := List.pairwise_cons.mp hs
    by_cases h : a.1 < c
    · have : ¬ c ≤ a.1 := not_le.mpr h
      simp only [pruneWindow, List.dropWhile_cons] at ih ⊢
      simp [h, this, ih ht]
    · have hca : c ≤ a.1 := le_of_not_lt h
      have hall : ∀ e ∈ t, c ≤ e.1 := fun e he => le_trans hca (ha e he)
      have hfilter : t.filter (fun e => decide (c ≤ e.1)) = t := by
        rw [List.filter_eq_self]
        intro e he
        simpa using hall e he
      simp [pruneWindow, List.dropWhile_cons, h, hca, hfilter]

theorem pruneWindow_all_kept (window : Window) (c : ℚ)
    (hall : ∀ e ∈ window, c ≤ e.1) : pruneWindow window c = window := by
  cases window with
  | nil => rfl
  | cons a t =>
    have : ¬ a.1 < c := not_lt.mpr (hall a (by simp))
    simp [pruneWindow, List.dropWhile_cons, this]

theorem window_median_eq_spec (window : Window) (now : ℚ) (hs : SortedTs window) :
    window_median window now = medianEstimate_spec window now := by
  unfold window_median medianEstimate_spec
  cases window with
  | nil => simp
  | cons a t =>
    rw [pruneWindow_eq_filter _ _ hs]
    simp

theorem window_median_eq_filtered (window : Window) (now : ℚ)
    (hs : SortedTs window) :
    window_median window now =
      window_median
        (window.filter (fun e => decide (now - (RSSI_WINDOW_SIZE : ℚ) ≤ e.1)))
        now := by
  rw [window_median_eq_spec window now hs]
  unfold window_median medianEstimate_spec
  have hkept : pruneWindow
      (window.filter (fun e => decide (now - (RSSI_WINDOW_SIZE : ℚ) ≤ e.1)))
      (now - (RSSI_WINDOW_SIZE : ℚ)) =
      window.filter (fun e => decide (now - (RSSI_WINDOW_SIZE : ℚ) ≤ e.1)) := by
    refine pruneWindow_all_kept _ _ ?_
    intro e he
    simpa using (List.of_mem_filter he)
  rw [hkept]
  cases hf : window.filter (fun e => decide (now - (RSSI_WINDOW_SIZE : ℚ) ≤ e.1)) with
  | nil => simp
  | cons b u => simp

theorem collect_tracked_tags_fst (store : Store) (allowed : List String)
    (now : ℚ) (hnd : allowed.Nodup) :
    (collect_tracked_tags store allowed now).1 =
      allowed.filterMap (fun t =>
        (window_median ((lookupWindow store t).getD []) now).map
          (fun m => TagReport.mk t (pyInt m))) := by
  induction allowed generalizing store with
  | nil => simp [collect_tracked_tags]
  | cons tg rest ih =>
    obtain ⟨hni, hnd2⟩ := List.nodup_cons.mp hnd
    have hfst := fst_get_median store tg now
    rcases hgm : get_median_rssi store tg now with ⟨m, st1⟩
    rw [hgm] at hfst
    rcases hc : collect_tracked_tags st1 rest now with ⟨tags, st2⟩
    have hih := ih st1 hnd2
    rw [hc] at hih
    have hpres : ∀ t ∈ rest, lookupWindow st1 t = lookupWindow store t := by
      intro t htmem
      have hne : t ≠ tg := fun hEq => hni (hEq ▸ htmem)
      have hframe := lookupWindow_get_median_ne store tg t now hne
      rw [hgm] at hframe
      exact hframe
    have hfm :
        rest.filterMap (fun t =>
          (window_median ((lookupWindow st1 t).getD []) now).map
            (fun m => TagReport.mk t (pyInt m))) =
        rest.filterMap (fun t =>
          (window_median ((lookupWindow store t).getD []) now).map
            (fun m => TagReport.mk t (pyInt m))) := by
      refine List.filterMap_congr ?_
      intro t htmem
      rw [hpres t htmem]
    rw [hfm] at hih
    cases m with
    | none =>
      simp only [collect_tracked_tags, hgm, hc, List.filterMap_cons, ← hfst,
        Option.map_none']
      exact hih
    | some mv =>
      simp only [collect_tracked_tags, hgm, hc, List.filterMap_cons, ← hfst,
        Option.map_some']
      simpa using hih

theorem lookupWindow_append_self (store : Store) (tag : String) (w : Window)
    (h : lookupWindow store tag = none) :
    lookupWindow (store ++ [(tag, w)]) tag = some w := by
  induction store with
  | nil => simp [lookupWindow]
  | cons kv rest ih =>
    obtain ⟨k, w0⟩ := kv
    by_cases hk : k = tag
    · rw [lookupWindow, if_pos hk] at h
      exact absurd h (by simp)
    · rw [lookupWindow, if_neg hk] at h
      simp only [List.cons_append, lookupWindow, if_neg hk]
      exact ih h

theorem lookup_get_median_self (store : Store) (tag : String) (now : ℚ) :
    (lookupWindow (get_median_rssi store tag now).2 tag).getD [] = [] ∨
    (lookupWindow (get_median_rssi store tag now).2 tag).getD [] =
      pruneWindow ((lookupWindow store tag).getD [])
        (now - (RSSI_WINDOW_SIZE : ℚ)) := by
  unfold get_median_rssi getWindowDefault
  cases hl : lookupWindow store tag with
  | none =>
    left
    simp only [hl, List.isEmpty_nil, if_true]
    rw [lookupWindow_append_self store tag [] hl]
    rfl
  | some w =>
    cases w with
    | nil =>
      left
      simp only [hl, List.isEmpty_nil, if_true]
      rfl
    | cons a t =>
      right
      simp only [hl, List.isEmpty_cons, Bool.false_eq_true, if_false,
        Option.getD_some]
      split <;> simp [lookupWindow_setWindow_self]

theorem find_guard_redundant (allowed : List String) (x : String) :
    (if pyUpper x ∈ allowed.map pyUpper then
        allowed.find? (fun a => pyUpper a = pyUpper x)
      else none) = allowed.find? (fun a => pyUpper a = pyUpper x) := by
  by_cases hm : pyUpper x ∈ allowed.map pyUpper
  · simp [hm]
  · rw [if_neg hm]
    symm
    rw [List.find?_eq_none]
    intro a ha
    simp only [decide_eq_true_eq]
    intro hEq
    exact hm (List.mem_map.mpr ⟨a, ha, hEq⟩)

/-! ## Claim C1 -/

/-- C1, as stated, is false: on a transport failure, LastSentPosition does
not remain unchanged. Concretely, a fresh scanner (LastSentPosition absent)
runs a dispatch cycle at time 5 whose transport call fails, and
LastSentPosition has nevertheless advanced from `none` to the current
position with timestamp 5, and the last batch time from 0 to 5. -/
theorem c1_counterexample :
    (initState cfg0 0).last_sent_gps = none ∧
    (initState cfg0 0).last_batch_time = 0 ∧
    (batch_send dist0 (initState cfg0 0) 5 false).2.last_sent_gps =
      some ⟨39, -94, 5⟩ ∧
    (batch_send dist0 (initState cfg0 0) 5 false).2.last_batch_time = 5 :=
  ⟨rfl, rfl, rfl, rfl⟩

/-- C1 (amended): in every dispatch cycle in which the asset-tracking
section is included in the payload (equivalently, the movement gate fires),
LastSentPosition is recorded as {current position, cycle start time} and
the last batch time advances during payload construction, before the
transport call — so regardless of the transport outcome; the post-cycle
state is identical whether the dispatch succeeds or fails. -/
theorem c1_last_sent_recorded_before_transport (dist : ℚ → ℚ → ℚ → ℚ → ℚ)
    (s : ScannerState) (now : ℚ) (sendOk : Bool) :
    (should_send_asset_tracking dist s.last_sent_gps s.gps_coords now = true →
      (batch_send dist s now sendOk).2.last_sent_gps =
        some ⟨s.gps_coords.lat, s.gps_coords.lng, now⟩ ∧
      (batch_send dist s now sendOk).2.last_batch_time = now) ∧
    batch_send dist s now true = batch_send dist s now false := by
  constructor
  · intro h
    unfold batch_send
    rcases hc : collect_tracked_tags s.tag_rssi_windows s.allowed_tag_uuids now
      with ⟨tags, st⟩
    by_cases hb : s.buffer.Nonempty <;> simp [hb, h, hc]
  · rfl

/-- C1 witness: the amended theorem applied to a fresh scanner dispatching
at time 5 with a failing transport. -/
theorem c1_witness :
    should_send_asset_tracking dist0 (initState cfg0 0).last_sent_gps
        (initState cfg0 0).gps_coords 5 = true ∧
    ((batch_send dist0 (initState cfg0 0) 5 false).2.last_sent_gps =
        some ⟨(initState cfg0 0).gps_coords.lat,
          (initState cfg0 0).gps_coords.lng, 5⟩ ∧
      (batch_send dist0 (initState cfg0 0) 5 false).2.last_batch_time = 5) :=
  ⟨rfl,
    (c1_last_sent_recorded_before_transport dist0 (initState cfg0 0) 5
      false).1 rfl⟩

/-! ## Claim C2 -/

/-- C2, as stated, is false: a fresh scanner, with an empty window store
(no tag has ever had a matched sighting, so no non-empty median estimate
exists), still dispatches a payload whose asset-tracking section is
present — with an empty tags list. -/
theorem c2_counterexample :
    (initState cfg0 0).tag_rssi_windows = [] ∧
    (batch_send dist0 (initState cfg0 0) 5 true).1 =
      some ⟨none, some ⟨"gw-01", 5, 39, -94, []⟩⟩ :=
  ⟨rfl, rfl⟩

/-- C2 (amended): the asset-tracking section is dispatched exactly when the
movement gate fires — even before any matched sighting has produced an
estimate, in which case its tags list is empty. -/
theorem c2_asset_section_iff_gate_due (dist : ℚ → ℚ → ℚ → ℚ → ℚ)
    (s : ScannerState) (now : ℚ) (sendOk : Bool) :
    ((batch_send dist s now sendOk).1.bind CombinedPayload.asset_tracking).isSome =
      should_send_asset_tracking dist s.last_sent_gps s.gps_coords now := by
  unfold batch_send
  rcases hc : collect_tracked_tags s.tag_rssi_windows s.allowed_tag_uuids now
    with ⟨tags, st⟩
  by_cases hb : s.buffer.Nonempty <;>
    by_cases hs : should_send_asset_tracking dist s.last_sent_gps
      s.gps_coords now = true <;>
      simp [hb, hs, hc]

/-! ## Claim C3 -/

/-- C3: `should_send_asset_tracking` (with the haversine distance on a
spherical Earth of radius 6,371,000 m) reports exactly when the last-sent
record is absent, or the elapsed time since it exceeds 120 seconds, or the
great-circle distance from its position to the current position exceeds
10 meters; otherwise it suppresses. -/
theorem c3_movement_gate_spec (lastSent : Option (LastSentGps ℝ))
    (currentPosition : Gps ℝ) (now : ℝ) :
    should_send_asset_tracking haversine_distance lastSent currentPosition now =
      true ↔
    lastSent = none ∨ ∃ ls, lastSent = some ls ∧
      ((120 : ℝ) < now - ls.ts ∨
        (10 : ℝ) < haversine_distance ls.lat ls.lng
          currentPosition.lat currentPosition.lng) := by
  cases lastSent with
  | none => simp [should_send_asset_tracking]
  | some ls =>
    simp only [should_send_asset_tracking, MOVEMENT_TIME_THRESHOLD,
      MOVEMENT_DISTANCE_THRESHOLD, Nat.cast_ofNat]
    by_cases h1 : (120 : ℝ) < now - ls.ts
    · simp [h1]
    · by_cases h2 : (10 : ℝ) <
          haversine_distance ls.lat ls.lng currentPosition.lat
            currentPosition.lng
      · simp [h1, h2]
      · simp [h1, h2]

/-! ## Claim C4 -/

/-- C4: `get_median_rssi` first prunes entries older than the 30-second
window span, returns no estimate if the remainder is empty, and otherwise
returns the statistical median of the remaining signal strengths (central
sorted value for an odd count, arithmetic mean of the two central values
for an even count); in particular the values [-60, -65, -70] give -65 and
[-60, -70] give -65. (Windows are timestamp-sorted, as successive scans
append at nondecreasing wall-clock times.) -/
theorem c4_median_estimate_spec :
    (∀ (store : Store) (tag : String) (now : ℚ),
      SortedTs ((lookupWindow store tag).getD []) →
      (get_median_rssi store tag now).1 =
        medianEstimate_spec ((lookupWindow store tag).getD []) now) ∧
    statMedian [-60, -65, -70] = -65 ∧ statMedian [-60, -70] = -65 := by
  refine ⟨?_, by decide, ?_⟩
  · intro store tag now hsorted
    rw [fst_get_median]
    exact window_median_eq_spec _ _ hsorted
  · norm_num [statMedian, List.insertionSort, List.orderedInsert]

/-- C4 witness: the median theorem applied to a concrete three-entry
window read at time 10. -/
theorem c4_witness :
    SortedTs ((lookupWindow [("t", [(0, -60), (1, -65), (2, -70)])] "t").getD
      []) ∧
    (get_median_rssi [("t", [(0, -60), (1, -65), (2, -70)])] "t" 10).1 =
      medianEstimate_spec
        ((lookupWindow [("t", [(0, -60), (1, -65), (2, -70)])] "t").getD [])
        10 :=
  ⟨by unfold SortedTs; decide,
    c4_median_estimate_spec.1 [("t", [(0, -60), (1, -65), (2, -70)])] "t" 10
      (by unfold SortedTs; decide)⟩

/-! ## Claim C5 -/

/-- C5: the identity-resolution chain of `scan_once` tries, first match
winning, the advertised name case-sensitively then case-insensitively,
then the advertised service identifiers uppercased against the uppercased
allow-list, then the hardware address uppercased; it coincides with the
spec-side resolver, and whenever a match is found the returned tag id is
an entry of the allow-list in its original casing. -/
theorem c5_resolver_order_and_allowlist_casing (allowed : List String)
    (name : Option String) (service_uuids : List String) (address : String) :
    resolve_tag_id allowed name service_uuids address =
      resolve_tag_id_spec allowed name service_uuids address ∧
    ∀ t, resolve_tag_id allowed name service_uuids address = some t →
      t ∈ allowed := by
  constructor
  · unfold resolve_tag_id resolve_tag_id_spec
    have hsv : (fun u : String =>
        if pyUpper u ∈ allowed.map pyUpper then
          allowed.find? (fun a => pyUpper a = pyUpper u)
        else none) = (fun u => allowed.find? (fun a => pyUpper a = pyUpper u)) := by
      funext u
      exact find_guard_redundant allowed u
    rw [hsv, find_guard_redundant allowed address]
    cases hn : (match name with
      | some n =>
        if n ≠ "" then
          if n ∈ allowed then some n
          else allowed.find? (fun a => pyUpper a = pyUpper n)
        else none
      | none => (none : Option String)) with
    | some t => simp [Option.orElse]
    | none =>
      simp only [Option.orElse]
      cases hsvr : service_uuids.findSome? (fun u =>
          allowed.find? (fun a => pyUpper a = pyUpper u)) <;> simp
  · have hchain : ∀ t', (match service_uuids.findSome? (fun u =>
        if pyUpper u ∈ allowed.map pyUpper then
          allowed.find? (fun a => pyUpper a = pyUpper u)
        else none) with
      | some t2 => some t2
      | none =>
        if pyUpper address ∈ allowed.map pyUpper then
          allowed.find? (fun a => pyUpper a = pyUpper address)
        else none) = some t' → t' ∈ allowed := by
      intro t' ht
      rcases hsvr : service_uuids.findSome? (fun u =>
          if pyUpper u ∈ allowed.map pyUpper then
            allowed.find? (fun a => pyUpper a = pyUpper u)
          else none) with _ | t2
      · rw [hsvr] at ht
        simp only at ht
        by_cases hm : pyUpper address ∈ allowed.map pyUpper
        · rw [if_pos hm] at ht
          exact List.mem_of_find?_eq_some ht
        · rw [if_neg hm] at ht
          exact absurd ht (by simp)
      · rw [hsvr] at ht
        simp only [Option.some.injEq] at ht
        subst ht
        obtain ⟨u, hu, hf⟩ := List.exists_of_findSome?_eq_some hsvr
        by_cases hm : pyUpper u ∈ allowed.map pyUpper
        · rw [if_pos hm] at hf
          exact List.mem_of_find?_eq_some hf
        · rw [if_neg hm] at hf
          exact absurd hf (by simp)
    intro t ht
    unfold resolve_tag_id at ht
    rcases name with _ | n
    · simp only at ht
      exact hchain t ht
    · by_cases hne : n = ""
      · subst hne
        simp only [ne_eq, not_true_eq_false, if_false, reduceIte] at ht
        exact hchain t ht
      · by_cases hmem : n ∈ allowed
        · simp only [ne_eq, hne, not_false_eq_true, if_true, hmem,
            reduceIte] at ht
          simp only [Option.some.injEq] at ht
          subst ht
          exact hmem
        · simp only [ne_eq, hne, not_false_eq_true, if_true, hmem,
            reduceIte] at ht
          rcases hf : allowed.find? (fun a => pyUpper a = pyUpper n) with _ | a
          · rw [hf] at ht
            simp only at ht
            exact hchain t ht
          · rw [hf] at ht
            simp only [Option.some.injEq] at ht
            subst ht
            exact List.mem_of_find?_eq_some hf

/-- C5 witness: a sighting advertising the name in a different casing
resolves to the allow-list entry in its original casing, hence to a member
of the allow-list. -/
theorem c5_witness :
    resolve_tag_id ["KatyTag1"] (some "katytag1") [] "AA:BB:CC:DD:EE:FF" =
      some "KatyTag1" ∧ "KatyTag1" ∈ ["KatyTag1"] :=
  ⟨by decide,
    (c5_resolver_order_and_allowlist_casing ["KatyTag1"] (some "katytag1")
      [] "AA:BB:CC:DD:EE:FF").2 "KatyTag1" (by decide)⟩

/-! ## Claim C6 -/

/-- C6: for a tag whose stored window is timestamp-sorted with entries no
later than the current time, (i) after a `record` operation every stored
entry lies within the 30-second span of the record time, (ii) after a
median read every stored entry lies within the span of the read time, and
(iii) an entry older than the span is never among the entries the median
computation reads, even if no `record` call ever pruned it. -/
theorem c6_window_entries_within_span (store : Store) (tag : String)
    (rssi now : ℚ)
    (hsorted : SortedTs ((lookupWindow store tag).getD []))
    (hpast : ∀ e ∈ (lookupWindow store tag).getD [], e.1 ≤ now) :
    (∀ e ∈ (lookupWindow (update_tag_rssi_window store tag rssi now) tag).getD
        [], now - e.1 ≤ (RSSI_WINDOW_SIZE : ℚ)) ∧
    (∀ e ∈ (lookupWindow (get_median_rssi store tag now).2 tag).getD [],
        now - e.1 ≤ (RSSI_WINDOW_SIZE : ℚ)) ∧
    (∀ e ∈ (lookupWindow store tag).getD [],
        e.1 < now - (RSSI_WINDOW_SIZE : ℚ) →
        e ∉ pruneWindow ((lookupWindow store tag).getD [])
          (now - (RSSI_WINDOW_SIZE : ℚ))) := by
  refine ⟨?_, ?_, ?_⟩
  · intro e he
    rw [lookupWindow_update_self] at he
    simp only [Option.getD_some] at he
    have hs2 : SortedTs ((lookupWindow store tag).getD [] ++ [(now, rssi)]) := by
      unfold SortedTs at hsorted ⊢
      rw [List.pairwise_append]
      refine ⟨hsorted, by simp, ?_⟩
      intro a ha b hb
      simp only [List.mem_singleton] at hb
      subst hb
      exact hpast a ha
    have := pruneWindow_mem_ge _ _ hs2 e he
    linarith
  · intro e he
    rcases lookup_get_median_self store tag now with hcase | hcase
    · rw [hcase] at he
      exact absurd he (by simp)
    · rw [hcase] at he
      have := pruneWindow_mem_ge _ _ hsorted e he
      linarith
  · intro e _ helt hmem
    have := pruneWindow_mem_ge _ _ hsorted e hmem
    linarith

/-- C6 witness: a two-entry window holding one entry 40 seconds old and one
5 seconds old, recorded into and read at time 100. -/
theorem c6_witness :
    SortedTs ((lookupWindow [("t", [(60, -50), (95, -60)])] "t").getD []) ∧
    (∀ e ∈ (lookupWindow [("t", [(60, -50), (95, -60)])] "t").getD [],
      e.1 ≤ 100) ∧
    ((∀ e ∈ (lookupWindow
        (update_tag_rssi_window [("t", [(60, -50), (95, -60)])] "t" (-40) 100)
        "t").getD [], (100 : ℚ) - e.1 ≤ (RSSI_WINDOW_SIZE : ℚ)) ∧
      (∀ e ∈ (lookupWindow
          (get_median_rssi [("t", [(60, -50), (95, -60)])] "t" 100).2
          "t").getD [], (100 : ℚ) - e.1 ≤ (RSSI_WINDOW_SIZE : ℚ)) ∧
      (∀ e ∈ (lookupWindow [("t", [(60, -50), (95, -60)])] "t").getD [],
          e.1 < (100 : ℚ) - (RSSI_WINDOW_SIZE : ℚ) →
          e ∉ pruneWindow
            ((lookupWindow [("t", [(60, -50), (95, -60)])] "t").getD [])
            ((100 : ℚ) - (RSSI_WINDOW_SIZE : ℚ)))) :=
  have h1 : SortedTs ((lookupWindow [("t", [(60, -50), (95, -60)])] "t").getD
      []) := by unfold SortedTs; decide
  have h2 : ∀ e ∈ (lookupWindow [("t", [(60, -50), (95, -60)])] "t").getD [],
      e.1 ≤ 100 := by decide
  ⟨h1, h2,
    c6_window_entries_within_span [("t", [(60, -50), (95, -60)])] "t" (-40)
      100 h1 h2⟩

/-! ## Claim C7 -/

/-- C7: the TrafficSet (`self.buffer`) is drained during payload
construction, before the transport call: after every dispatch cycle the
buffer is empty, and the post-cycle state is identical whether the
transport succeeds or fails, so a failure never restores the drained
tokens. -/
theorem c7_buffer_drained_regardless_of_transport (dist : ℚ → ℚ → ℚ → ℚ → ℚ)
    (s : ScannerState) (now : ℚ) (sendOk : Bool) :
    (batch_send dist s now sendOk).2.buffer = ∅ ∧
    batch_send dist s now true = batch_send dist s now false := by
  constructor
  · unfold batch_send
    rcases hc : collect_tracked_tags s.tag_rssi_windows s.allowed_tag_uuids now
      with ⟨tags, st⟩
    by_cases hb : s.buffer.Nonempty <;>
      by_cases hs : should_send_asset_tracking dist s.last_sent_gps
        s.gps_coords now = true <;>
        simp [hb, hs, hc, Finset.not_nonempty_iff_eq_empty.mp]
  · rfl

/-! ## Claim C8 -/

/-- C8, as stated, is false: computing a median for a never-matched tag
does create a window entry in the store (`tag_rssi_windows` is a
`defaultdict`, and `get_median_rssi` subscripts it). Concretely, reading
the median of tag "TAG-A" from the empty store leaves the store with a
(empty) window bound to "TAG-A". -/
theorem c8_counterexample :
    lookupWindow ((get_median_rssi ([] : Store) "TAG-A" 0).2) "TAG-A" =
      some [] :=
  rfl

/-- C8 (amended): windows are created lazily on first access rather than
first match: a median read of a tag with no window binds an empty window
to that tag (appended in insertion order), returns no estimate, and leaves
the rest of the store unchanged — so after a dispatch cycle every
allow-list tag has a window, but a read-created window is empty. -/
theorem c8_median_read_creates_empty_window (store : Store) (tag : String)
    (now : ℚ) (h : lookupWindow store tag = none) :
    get_median_rssi store tag now = (none, store ++ [(tag, [])]) := by
  unfold get_median_rssi getWindowDefault
  simp [h]

/-- C8 witness: the amended theorem applied to the empty store. -/
theorem c8_witness :
    lookupWindow ([] : Store) "TAG-A" = none ∧
    get_median_rssi ([] : Store) "TAG-A" 0 = (none, [("TAG-A", [])]) :=
  ⟨rfl, c8_median_read_creates_empty_window [] "TAG-A" 0 rfl⟩

/-! ## Claim C9 -/

/-- C9: `hash_mac` is deterministic — equal hardware addresses always give
equal tokens, with no per-run randomness anywhere in the embedding (the
digest collaborator is a fixed function) — and the token is the
fixed-length (16-character) truncation of the 64-character deterministic
cryptographic digest. -/
theorem c9_hash_deterministic_and_truncated (sha256_hexdigest : String → String)
    (a b : String) :
    (a = b → hash_mac sha256_hexdigest a = hash_mac sha256_hexdigest b) ∧
    ((∀ s, (sha256_hexdigest s).length = 64) →
      (hash_mac sha256_hexdigest a).length = 16) := by
  constructor
  · intro h
    rw [h]
  · intro h
    show ((sha256_hexdigest a).data.take 16).length = 16
    rw [List.length_take]
    have hlen : (sha256_hexdigest a).data.length = 64 := h a
    rw [hlen]
    decide

/-- C9 witness: the hash theorem applied to a concrete digest collaborator
and address. -/
theorem c9_witness :
    hash_mac sha0 "AA:BB:CC:DD:EE:FF" = hash_mac sha0 "AA:BB:CC:DD:EE:FF" ∧
    (hash_mac sha0 "AA:BB:CC:DD:EE:FF").length = 16 :=
  ⟨(c9_hash_deterministic_and_truncated sha0 "AA:BB:CC:DD:EE:FF"
      "AA:BB:CC:DD:EE:FF").1 rfl,
    (c9_hash_deterministic_and_truncated sha0 "AA:BB:CC:DD:EE:FF"
      "AA:BB:CC:DD:EE:FF").2 (fun _ => rfl)⟩

/-! ## Claim C10 -/

/-- C10: every tag entry in the dispatched asset-tracking payload carries
as its rssi field the window's median converted to an integer by Python
`int()` truncation toward zero; in particular a median of -65.5 reports
-65, not the floor -66. -/
theorem c10_payload_rssi_truncated_median :
    (∀ (dist : ℚ → ℚ → ℚ → ℚ → ℚ) (s : ScannerState) (now : ℚ) (sendOk : Bool)
      (p : CombinedPayload) (ap : AssetPayload),
      s.allowed_tag_uuids.Nodup →
      (batch_send dist s now sendOk).1 = some p →
      p.asset_tracking = some ap →
      ap.tags = s.allowed_tag_uuids.filterMap (fun t =>
        (window_median ((lookupWindow s.tag_rssi_windows t).getD []) now).map
          (fun m => TagReport.mk t (pyInt m)))) ∧
    pyInt (-131 / 2) = -65 ∧ (⌊(-131 / 2 : ℚ)⌋ : ℤ) = -66 := by
  refine ⟨?_, ?_, ?_⟩
  · intro dist s now sendOk p ap hnd hp hap
    have hfst := collect_tracked_tags_fst s.tag_rssi_windows
      s.allowed_tag_uuids now hnd
    unfold batch_send at hp
    rcases hc : collect_tracked_tags s.tag_rssi_windows s.allowed_tag_uuids now
      with ⟨tags, st⟩
    rw [hc] at hp hfst
    by_cases hs : should_send_asset_tracking dist s.last_sent_gps
        s.gps_coords now = true
    · by_cases hb : s.buffer.Nonempty <;>
        simp only [hb, hs, Bool.false_eq_true, if_true, if_false,
          reduceIte] at hp
      all_goals
        obtain rfl : _ = p := Option.some.inj hp
      all_goals
        obtain rfl : _ = ap := Option.some.inj hap
      all_goals exact hfst
    · exfalso
      by_cases hb : s.buffer.Nonempty <;>
        simp only [hb, hs, Bool.false_eq_true, if_true, if_false,
          reduceIte, and_self, and_true, true_and] at hp
      · obtain rfl : _ = p := Option.some.inj hp
        exact Option.noConfusion hap
      · exact Option.noConfusion hp
  · unfold pyInt
    rw [if_neg (by norm_num)]
    rw [Int.ceil_eq_iff]
    norm_num
  · norm_num

/-- C10 witness: the payload theorem applied to a fresh scanner whose
first cycle dispatches an asset section with an empty tags list. -/
theorem c10_witness :
    List.Nodup (initState cfg0 0).allowed_tag_uuids ∧
    (⟨"gw-01", 5, 39, -94, []⟩ : AssetPayload).tags =
      (initState cfg0 0).allowed_tag_uuids.filterMap (fun t =>
        (window_median
          ((lookupWindow (initState cfg0 0).tag_rssi_windows t).getD []) 5).map
          (fun m => TagReport.mk t (pyInt m))) :=
  ⟨by decide,
    c10_payload_rssi_truncated_median.1 dist0 (initState cfg0 0) 5 true
      ⟨none, some ⟨"gw-01", 5, 39, -94, []⟩⟩ ⟨"gw-01", 5, 39, -94, []⟩
      (by decide) rfl rfl⟩
